import Mathlib

/-!
Verification development for the ai-recipe-generator backend.

The Python sources are shallowly embedded: dictionaries become association
lists over a JSON-like value type, stateful external services (OpenAI chat
and embeddings, Pinecone index, MongoDB document store) become oracle
fields of an explicit environment record, and every fallible call is an
Option-valued oracle (none models a raised exception).  Route handlers
become pure functions from the environment to a response together with an
explicit record of the external calls they performed.
-/

/-- JSON-like values as they live inside the Python dictionaries of the
    app.  The extra time constructor stands for datetime objects that the
    code stores in dicts next to decoded JSON data. -/
inductive Json where
  | null : Json
  | bool : Bool → Json
  | num : Int → Json
  | str : String → Json
  | arr : List Json → Json
  | obj : List (String × Json) → Json
  | time : Nat → Json

/-- A Python dict with string keys, in insertion order. -/
abbrev RDict := List (String × Json)

/-- Python dict.get: value of the first binding of the key. -/
def rget? (d : RDict) (k : String) : Option Json :=
  match d with
  | [] => none
  | (k2, v) :: rest => if k2 = k then some v else rget? rest k

/-- Python dict.get with a default. -/
def rgetD (d : RDict) (k : String) (dflt : Json) : Json :=
  (rget? d k).getD dflt

/-- Python membership test on dict keys. -/
def rcontains (d : RDict) (k : String) : Bool :=
  (rget? d k).isSome

/-- Python dict assignment: replace the value in place if the key exists,
    otherwise append the binding at the end. -/
def rinsert (d : RDict) (k : String) (v : Json) : RDict :=
  match d with
  | [] => [(k, v)]
  | (k2, w) :: rest => if k2 = k then (k2, v) :: rest else (k2, w) :: rinsert rest k v

theorem rget?_rinsert_self (d : RDict) (k : String) (v : Json) :
    rget? (rinsert d k v) k = some v := by
  induction d with
  | nil => simp [rinsert, rget?]
  | cons hd tl ih =>
    obtain ⟨k2, w⟩ := hd
    by_cases h : k2 = k
    · simp [rinsert, rget?, h]
    · simp [rinsert, rget?, h, ih]

theorem rget?_rinsert_ne (d : RDict) (k k2 : String) (v : Json) (h : k ≠ k2) :
    rget? (rinsert d k v) k2 = rget? d k2 := by
  induction d with
  | nil => simp [rinsert, rget?, h]
  | cons hd tl ih =>
    obtain ⟨k3, w⟩ := hd
    by_cases h3 : k3 = k
    · subst h3
      simp [rinsert, rget?, h]
    · simp [rinsert, rget?, h3, ih]

/-- Characters that the embedding needs to name without writing brace
    literals. -/
def lbraceChar : Char := Char.ofNat 123

def rbraceChar : Char := Char.ofNat 125

def quoteChar : Char := Char.ofNat 34

def backslashChar : Char := Char.ofNat 92

def aposChar : Char := Char.ofNat 39

/-- A one-character string holding an apostrophe, used to spell the
    Python string literals of the source that contain one. -/
def aposS : String := String.mk [aposChar]

/-- First index of a character in a list, if any. -/
def firstIdxOf (cs : List Char) (c : Char) : Option Nat :=
  cs.findIdx? (fun x => x = c)

/-- Last index of a character in a list, if any. -/
def lastIdxOf (cs : List Char) (c : Char) : Option Nat :=
  match cs.reverse.findIdx? (fun x => x = c) with
  | none => none
  | some j => some (cs.length - 1 - j)

/-- Embeds the regex search for a brace-delimited region used by
    AIService parse of the model output: with DOTALL and a greedy body the
    match, when it exists, runs from the first opening brace to the last
    closing brace after it. -/
def extractBraced (s : String) : Option String :=
  match firstIdxOf s.data lbraceChar, lastIdxOf s.data rbraceChar with
  | some i, some j =>
      if i < j then some (String.mk ((s.data.drop i).take (j - i + 1))) else none
  | _, _ => none

/-- Skip JSON whitespace. -/
def skipWs : List Char → List Char
  | [] => []
  | c :: cs => if c = ' ' || c = '\n' || c = '\t' || c = '\r' then skipWs cs else c :: cs

/-- Read the body of a string literal after its opening quote; escape
    sequences are not part of the modelled subset and make decoding fail. -/
def takeStringLit : List Char → Option (String × List Char)
  | [] => none
  | c :: cs =>
      if c = quoteChar then some ("", cs)
      else if c = backslashChar then none
      else match takeStringLit cs with
        | some (s, rest) => some (String.mk (c :: s.data), rest)
        | none => none

/-- Read a run of decimal digits. -/
def takeDigits : List Char → (List Char × List Char)
  | [] => ([], [])
  | c :: cs =>
      if c.isDigit then
        match takeDigits cs with
        | (ds, rest) => (c :: ds, rest)
      else ([], c :: cs)

/-- Value of a digit run, most significant digit first. -/
def digitsValGo : List Char → Nat → Nat
  | [], acc => acc
  | c :: cs, acc => digitsValGo cs (acc * 10 + (c.toNat - 48))

/-- Value of a digit run. -/
def digitsVal (ds : List Char) : Nat :=
  digitsValGo ds 0

/-- The pending work items of the JSON decoder; merging the mutually
    recursive decode functions into one fuel-indexed step function keeps
    the recursion structural, so concrete decodes reduce by rfl. -/
inductive DecTask where
  | dval (cs : List Char)
  | dmembers (cs : List Char) (acc : List (String × Json))
  | ditems (cs : List Char) (acc : List Json)

/-- One decoder: a value, the members of an object after its opening
    brace, or the items of an array after its opening bracket. -/
def decodeStep : Nat → DecTask → Option (Json × List Char)
  | 0, _ => none
  | fuel + 1, DecTask.dval cs =>
      match skipWs cs with
      | [] => none
      | c :: rest =>
          if c = quoteChar then
            match takeStringLit rest with
            | some (s, rest2) => some (Json.str s, rest2)
            | none => none
          else if c = lbraceChar then
            match skipWs rest with
            | [] => none
            | c2 :: rest2 =>
                if c2 = rbraceChar then some (Json.obj [], rest2)
                else decodeStep fuel (DecTask.dmembers (c2 :: rest2) [])
          else if c = '[' then
            match skipWs rest with
            | [] => none
            | c2 :: rest2 =>
                if c2 = ']' then some (Json.arr [], rest2)
                else decodeStep fuel (DecTask.ditems (c2 :: rest2) [])
          else if c = 't' then
            match rest with
            | 'r' :: 'u' :: 'e' :: rest2 => some (Json.bool true, rest2)
            | _ => none
          else if c = 'f' then
            match rest with
            | 'a' :: 'l' :: 's' :: 'e' :: rest2 => some (Json.bool false, rest2)
            | _ => none
          else if c = 'n' then
            match rest with
            | 'u' :: 'l' :: 'l' :: rest2 => some (Json.null, rest2)
            | _ => none
          else if c = '-' then
            match takeDigits rest with
            | ([], _) => none
            | (ds, rest2) =>
                match rest2 with
                | '.' :: _ => none
                | 'e' :: _ => none
                | 'E' :: _ => none
                | _ => some (Json.num (-(digitsVal ds : Int)), rest2)
          else if c.isDigit then
            match takeDigits (c :: rest) with
            | ([], _) => none
            | (ds, rest2) =>
                match rest2 with
                | '.' :: _ => none
                | 'e' :: _ => none
                | 'E' :: _ => none
                | _ => some (Json.num (digitsVal ds : Int), rest2)
          else none
  | fuel + 1, DecTask.dmembers cs acc =>
      match skipWs cs with
      | [] => none
      | c :: rest =>
          if c = quoteChar then
            match takeStringLit rest with
            | none => none
            | some (k, rest2) =>
                match skipWs rest2 with
                | ':' :: rest3 =>
                    match decodeStep fuel (DecTask.dval rest3) with
                    | none => none
                    | some (v, rest4) =>
                        match skipWs rest4 with
                        | ',' :: rest5 =>
                            decodeStep fuel (DecTask.dmembers rest5 (acc ++ [(k, v)]))
                        | c2 :: rest5 =>
                            if c2 = rbraceChar then
                              some (Json.obj (acc ++ [(k, v)]), rest5)
                            else none
                        | [] => none
                | _ => none
          else none
  | fuel + 1, DecTask.ditems cs acc =>
      match decodeStep fuel (DecTask.dval cs) with
      | none => none
      | some (v, rest) =>
          match skipWs rest with
          | ',' :: rest2 => decodeStep fuel (DecTask.ditems rest2 (acc ++ [v]))
          | ']' :: rest2 => some (Json.arr (acc ++ [v]), rest2)
          | _ => none

/-- Executable model of the stdlib JSON decode as applied to the
    brace-delimited region the code extracts: the whole input must be one
    JSON value followed only by whitespace, and since the region starts
    with an opening brace a successful decode yields an object, whose
    fields are returned.  The modelled subset has integer numerals and
    escape-free strings; anything else decodes to none.  The concrete
    inputs of this development stay inside the subset. -/
def jsonLoadsObj (s : String) : Option (List (String × Json)) :=
  match decodeStep (2 * s.length + 4) (DecTask.dval s.data) with
  | none => none
  | some (v, rest) =>
      if (skipWs rest).isEmpty then
        match v with
        | Json.obj fs => some fs
        | _ => none
      else none

mutual

/-- Python str applied to a dict value; containers are rendered
    approximately (the app only formats them into log lines and prompt
    text, never into data the claims constrain). -/
def pyStr : Json → String
  | Json.null => "None"
  | Json.bool b => if b then "True" else "False"
  | Json.num n => toString n
  | Json.str s => s
  | Json.time t => toString t
  | Json.arr xs => "[" ++ pyStrJoin xs ++ "]"
  | Json.obj fs => String.mk [lbraceChar] ++ pyStrFieldsJoin fs ++ String.mk [rbraceChar]

def pyStrJoin : List Json → String
  | [] => ""
  | [x] => pyStr x
  | x :: y :: xs => pyStr x ++ ", " ++ pyStrJoin (y :: xs)

def pyStrFieldsJoin : List (String × Json) → String
  | [] => ""
  | [(k, v)] => k ++ ": " ++ pyStr v
  | (k, v) :: y :: xs => k ++ ": " ++ pyStr v ++ ", " ++ pyStrFieldsJoin (y :: xs)

end

/-- A raw nearest-neighbour match as the vector index returns it. -/
structure BackendMatch where
  mid : String
  score : ℚ
  metadata : RDict

/-- A similar-recipe entry as search builds it: id, score, the
    name drawn from the metadata, and the full metadata. -/
structure SimMatch where
  mid : String
  score : ℚ
  mname : Json
  metadata : RDict

/-- A user document as stored in the document store; the optional fields
    model key presence in the underlying dict (legacy documents carry the
    singular favorite_food and lack favorite_foods). -/
structure UserDoc where
  student_id : String
  uname : String
  favorite_food : Option String
  favorite_foods : Option (List String)
  dietary_preferences : List String
  created_at : Option Nat
  updated_at : Option Nat

/-- The external world of one request: time, randomness and the outcome
    of every provider call the handler can make.  A none outcome models
    the call raising.  The loads field is the stdlib JSON decode applied
    to the extracted brace region; concrete instantiations use
    jsonLoadsObj. -/
structure Env where
  now : Nat
  uuid : String
  choiceCtx : Nat
  choiceFb : Nat
  chat : String → Option String
  loads : String → Option (List (String × Json))
  imageGen : Option String
  embedSearch : Bool
  query : Nat → Option (List BackendMatch)
  embedStore : Bool
  upsertOk : Bool
  getUser : Option UserDoc
  conv : Option String

/-- An HTTPException as the routes raise it. -/
structure HErr where
  status : Nat
  detail : String
deriving DecidableEq

/-- The RecipeResponse model of app/models.py. -/
structure RecipeResponse where
  user_id : String
  recipe_name : String
  ingredients : List String
  instructions : List String
  cooking_time : String
  difficulty : String
  servings : Int
  serving_size : String
  dietary_tags : List String
  nutritional_facts : RDict
  image_prompt : String
  image_url : String
  conversation_id : String
  generated_at : Nat

/-- A record upserted into the vector index. -/
structure VectorRecord where
  vid : String
  metadata : RDict

/-- The external calls one request performed. -/
structure Effects where
  searchCalls : List (String × Nat)
  chatCalls : Nat
  upsertCalls : List VectorRecord
  convCalls : Nat

def noEffects : Effects :=
  { searchCalls := [], chatCalls := 0, upsertCalls := [], convCalls := 0 }

/-- VectorStore.search_similar_recipes: embed the query, run the index
    query, and repackage the matches; any backend failure is swallowed
    into an empty result. -/
def vsSearchSimilarRecipes (env : Env) (q : String) (top_k : Nat) : List SimMatch :=
  if env.embedSearch then
    match env.query top_k with
    | some ms =>
        ms.map (fun m =>
          { mid := m.mid, score := m.score,
            mname := rgetD m.metadata "name" (Json.str "Unknown"),
            metadata := m.metadata })
    | none => []
  else []

/-- VectorStore.store_recipe: embed a text surrogate of the recipe, mint
    a unique id, and upsert the dict verbatim as metadata; returns whether
    the write succeeded together with the records handed to the index.
    An embedding failure aborts before the upsert; an upsert failure
    still hands the record to the index. -/
def vsStoreRecipe (env : Env) (recipe_id : String) (recipe_data : RDict) :
    Bool × List VectorRecord :=
  if env.embedStore then
    (env.upsertOk,
      [{ vid := recipe_id ++ "_" ++ toString env.now ++ "_" ++ env.uuid,
         metadata := recipe_data }])
  else (false, [])

/-- random.choice modelled by an index supplied by the environment;
    the default is returned only for an empty list (the call sites guard
    emptiness themselves). -/
def pickChoice (i : Nat) (l : List String) (dflt : String) : String :=
  match l with
  | [] => dflt
  | x :: xs => (x :: xs).getD (i % (x :: xs).length) dflt

def sevenNFKeys : List String :=
  ["calories", "protein", "carbohydrates", "fat", "fiber", "sugar", "sodium"]

/-- The placeholder nutritional facts backfilled by the parse step and by
    the fallback parse. -/
def parseDefaultNF : RDict :=
  [("calories", Json.num 300), ("protein", Json.str "10g"),
   ("carbohydrates", Json.str "40g"), ("fat", Json.str "10g"),
   ("fiber", Json.str "5g"), ("sugar", Json.str "3g"),
   ("sodium", Json.str "300mg")]

/-- The favorite-food line of the generation context. -/
def favoriteFoodPart (env : Env) (p : UserDoc) : String :=
  match p.favorite_foods.getD [] with
  | [] => "User" ++ aposS ++ "s favorite foods: Not specified"
  | x :: xs =>
      "User" ++ aposS ++ "s primary favorite food: " ++ pickChoice env.choiceCtx (x :: xs) ""

/-- The dietary-preferences line of the generation context, present only
    when the list is non-empty. -/
def dietaryParts (p : UserDoc) : List String :=
  if p.dietary_preferences = [] then []
  else ["Dietary preferences: " ++ String.intercalate ", " p.dietary_preferences]

/-- How one similar recipe is formatted for the context. -/
def recipeInfoLine (m : SimMatch) : String :=
  pyStr (rgetD m.metadata "name" (Json.str "Unknown")) ++ " - " ++
    pyStr (rgetD m.metadata "cuisine" (Json.str "Unknown cuisine"))

/-- The formatted lines of the matches whose score strictly exceeds the
    0.8 threshold, in order. -/
def relevantRecipeLines (sims : List SimMatch) : List String :=
  (sims.filter (fun r => (0.8 : ℚ) < r.score)).map recipeInfoLine

/-- The inspiration section of the context: nothing when no matches were
    retrieved, a no-relevant-recipes note when none passes the threshold,
    and otherwise a header plus the first relevant line only. -/
def inspirationParts (sims : List SimMatch) : List String :=
  if sims.isEmpty then []
  else
    match relevantRecipeLines sims with
    | [] => ["No highly relevant recipes found for inspiration."]
    | l :: _ => ["Similar recipes for inspiration:", "1. " ++ l]

/-- AIService._create_context as the list of its context parts. -/
def createContextParts (env : Env) (p : UserDoc) (sims : List SimMatch) : List String :=
  [favoriteFoodPart env p] ++ dietaryParts p ++ inspirationParts sims

/-- AIService._create_context. -/
def createContext (env : Env) (p : UserDoc) (sims : List SimMatch) : String :=
  String.intercalate "\n" (createContextParts env p sims)

/-- The user message handed to the chat completion. -/
def recipeUserMsg (env : Env) (p : UserDoc) (sims : List SimMatch) : String :=
  "Generate a personalized recipe based on this context: " ++ createContext env p sims

/-- AIService._fallback_parse: the line loop only matches patterns and
    discards them, so the result is this fixed dict. -/
def fallbackParseRecipe : RDict :=
  [("recipe_name", Json.str "Simple Recipe"),
   ("ingredients", Json.arr []),
   ("instructions", Json.arr []),
   ("cooking_time", Json.str "30 minutes"),
   ("difficulty", Json.str "Medium"),
   ("servings", Json.num 4),
   ("serving_size", Json.str "1 serving"),
   ("dietary_tags", Json.arr []),
   ("nutritional_facts", Json.obj parseDefaultNF),
   ("image_prompt", Json.str "A delicious homemade dish served on a plate")]

def simplePastaNF : RDict :=
  [("calories", Json.num 320), ("protein", Json.str "8g"),
   ("carbohydrates", Json.str "55g"), ("fat", Json.str "8g"),
   ("fiber", Json.str "3g"), ("sugar", Json.str "2g"),
   ("sodium", Json.str "250mg")]

/-- AIService._get_default_recipe: the static Simple Pasta recipe, with
    the generation time and the outcome of the image attempt. -/
def getDefaultRecipe (env : Env) : RDict :=
  [("recipe_name", Json.str "Simple Pasta"),
   ("ingredients", Json.arr [Json.str "pasta", Json.str "olive oil",
      Json.str "garlic", Json.str "herbs", Json.str "salt"]),
   ("instructions", Json.arr [Json.str "Boil pasta according to package instructions",
      Json.str "Heat olive oil in a pan", Json.str "Add garlic and herbs",
      Json.str "Combine with pasta and serve"]),
   ("cooking_time", Json.str "20 minutes"),
   ("difficulty", Json.str "Easy"),
   ("servings", Json.num 2),
   ("serving_size", Json.str "1 cup"),
   ("dietary_tags", Json.arr [Json.str "vegetarian"]),
   ("nutritional_facts", Json.obj simplePastaNF),
   ("image_prompt", Json.str "A simple pasta dish with olive oil, garlic, and herbs served on a white plate"),
   ("generated_at", Json.time env.now),
   ("image_url", Json.str (env.imageGen.getD ""))]

def fallbackNF : RDict :=
  [("calories", Json.num 350), ("protein", Json.str "12g"),
   ("carbohydrates", Json.str "45g"), ("fat", Json.str "12g"),
   ("fiber", Json.str "6g"), ("sugar", Json.str "4g"),
   ("sodium", Json.str "350mg")]

/-- AIService._get_fallback_recipe: the profile-derived templated recipe
    used when the whole generation step raised. -/
def getFallbackRecipe (env : Env) (p : UserDoc) : RDict :=
  let primary := pickChoice env.choiceFb (p.favorite_foods.getD []) "Recipe"
  [("recipe_name", Json.str ("Simple " ++ primary)),
   ("ingredients", Json.arr [Json.str "ingredient1", Json.str "ingredient2",
      Json.str "ingredient3"]),
   ("instructions", Json.arr [Json.str "Step 1: Prepare ingredients",
      Json.str "Step 2: Cook according to preference",
      Json.str "Step 3: Serve and enjoy"]),
   ("cooking_time", Json.str "30 minutes"),
   ("difficulty", Json.str "Medium"),
   ("servings", Json.num 4),
   ("serving_size", Json.str "1 serving"),
   ("dietary_tags", Json.arr (p.dietary_preferences.map Json.str)),
   ("nutritional_facts", Json.obj fallbackNF),
   ("image_prompt", Json.str ("A delicious " ++ primary ++ " served on a plate")),
   ("user_id", Json.str p.student_id),
   ("generated_at", Json.time env.now),
   ("image_url", Json.str (env.imageGen.getD ""))]

/-- The defensive completion after a successful decode: backfill
    image_prompt (lower-casing the recipe name, which raises when that
    name is not a string, modelled by none), then serving_size, then
    nutritional_facts. -/
def completeRecipeJson (fs : RDict) : Option RDict :=
  let step1 : Option RDict :=
    if rcontains fs "image_prompt" then some fs
    else
      match rgetD fs "recipe_name" (Json.str "Recipe") with
      | Json.str rn =>
          let lowered := rn.toLower
          some (rinsert fs "image_prompt"
            (Json.str ("A delicious " ++ lowered ++ " served on a plate with garnishes")))
      | _ => none
  match step1 with
  | none => none
  | some d1 =>
      let d2 := if rcontains d1 "serving_size" then d1
        else rinsert d1 "serving_size" (Json.str "1 serving")
      some (if rcontains d2 "nutritional_facts" then d2
        else rinsert d2 "nutritional_facts" (Json.obj parseDefaultNF))

/-- AIService._parse_recipe_response: extract a brace region, decode it
    and complete it; without a region fall back to the fixed parse, and
    on any decode or completion error return the static default recipe. -/
def parseRecipeResponse (env : Env) (text : String) : RDict :=
  match extractBraced text with
  | none => fallbackParseRecipe
  | some s =>
      match env.loads s with
      | none => getDefaultRecipe env
      | some fs =>
          match completeRecipeJson fs with
          | none => getDefaultRecipe env
          | some d => d

/-- The metadata assignments generate_recipe performs on the parsed dict:
    the image url is hard-set to the empty string (the image call is
    commented out on this path), then user id and generation time are
    attached. -/
def finalizeRecipe (env : Env) (p : UserDoc) (d : RDict) : RDict :=
  rinsert (rinsert (rinsert d "image_url" (Json.str ""))
    "user_id" (Json.str p.student_id)) "generated_at" (Json.time env.now)

/-- AIService.generate_recipe: build the context, call the chat
    completion and parse its text; any raise inside the try block (the
    provider call) degrades to the profile-derived fallback recipe. -/
def aiGenerateRecipe (env : Env) (p : UserDoc) (sims : List SimMatch) : RDict :=
  match env.chat (recipeUserMsg env p sims) with
  | none => getFallbackRecipe env p
  | some text => finalizeRecipe env p (parseRecipeResponse env text)

/-- The completed provider object, when the provider answered with text
    from which a brace region was extracted, decoded and completed. -/
def providerParsed (env : Env) (p : UserDoc) (sims : List SimMatch) : Option RDict :=
  match env.chat (recipeUserMsg env p sims) with
  | none => none
  | some text =>
      match extractBraced text with
      | none => none
      | some s =>
          match env.loads s with
          | none => none
          | some fs => completeRecipeJson fs

/-- The nutritional_facts value the provider itself supplied, when its
    output decoded and completed. -/
def providerSuppliedNF (env : Env) (p : UserDoc) (sims : List SimMatch) : Option Json :=
  match env.chat (recipeUserMsg env p sims) with
  | none => none
  | some text =>
      match extractBraced text with
      | none => none
      | some s =>
          match env.loads s with
          | none => none
          | some fs =>
              match completeRecipeJson fs with
              | none => none
              | some _ => rget? fs "nutritional_facts"

/-- The key list of the nutritional_facts object of a recipe dict. -/
def nfKeys (d : RDict) : List String :=
  match rget? d "nutritional_facts" with
  | some (Json.obj fs) => fs.map Prod.fst
  | _ => []

def asStr : Json → Option String
  | Json.str s => some s
  | _ => none

def asInt : Json → Option Int
  | Json.num n => some n
  | _ => none

def asStrList : Json → Option (List String)
  | Json.arr xs => xs.mapM asStr
  | _ => none

def asObj : Json → Option RDict
  | Json.obj fs => some fs
  | _ => none

def asTime : Json → Option Nat
  | Json.time t => some t
  | _ => none

/-- Validation performed by constructing RecipeResponse from the recipe
    dict: every field must be present with the declared shape, and a
    failure raises (surfaced by the route as an internal error). -/
def mkRecipeResponse (d : RDict) : Option RecipeResponse := do
  let uid ← (rget? d "user_id").bind asStr
  let rn ← (rget? d "recipe_name").bind asStr
  let ing ← (rget? d "ingredients").bind asStrList
  let ins ← (rget? d "instructions").bind asStrList
  let ct ← (rget? d "cooking_time").bind asStr
  let diff ← (rget? d "difficulty").bind asStr
  let serv ← (rget? d "servings").bind asInt
  let ss ← (rget? d "serving_size").bind asStr
  let tags ← (rget? d "dietary_tags").bind asStrList
  let nf ← (rget? d "nutritional_facts").bind asObj
  let ip ← (rget? d "image_prompt").bind asStr
  let iu ← (rget? d "image_url").bind asStr
  let cid ← (rget? d "conversation_id").bind asStr
  let ga ← (rget? d "generated_at").bind asTime
  pure { user_id := uid, recipe_name := rn, ingredients := ing, instructions := ins,
         cooking_time := ct, difficulty := diff, servings := serv, serving_size := ss,
         dietary_tags := tags, nutritional_facts := nf, image_prompt := ip,
         image_url := iu, conversation_id := cid, generated_at := ga }

def notFoundErr (uid : String) : HErr :=
  { status := 404, detail := "User with student_id " ++ uid ++ " not found" }

def badReqErr : HErr :=
  { status := 400, detail := "User must have at least one favorite food specified" }

def internalErr : HErr :=
  { status := 500, detail := "Failed to generate recipe" }

/-- The vector_recipe_data dict the generation route builds before the
    vector write (the FIXED VERSION present in the source). -/
def buildVectorRecipeData (uid : String) (d : RDict) : RDict :=
  [("name", rgetD d "recipe_name" (Json.str "Generated Recipe")),
   ("ingredients", rgetD d "ingredients" (Json.arr [])),
   ("instructions", rgetD d "instructions" (Json.arr [])),
   ("cuisine", Json.str "AI Generated"),
   ("difficulty", rgetD d "difficulty" (Json.str "Medium")),
   ("cooking_time", rgetD d "cooking_time" (Json.str "30 minutes")),
   ("servings", rgetD d "servings" (Json.num 4)),
   ("description", Json.str ("AI-generated recipe for " ++ uid)),
   ("generated_for_user", Json.str uid),
   ("generated_at", Json.str (pyStr (rgetD d "generated_at" (Json.str "")))),
   ("conversation_id", rgetD d "conversation_id" (Json.str "")),
   ("dietary_tags", rgetD d "dietary_tags" (Json.arr [])),
   ("user_id", rgetD d "user_id" (Json.str uid))]

/-- GET /recipe/(user_id) of app/routes/recipes.py, the router registered
    by main.py.  The profile lookup result and the conversation append
    outcome come from the environment (the document-store module is not
    under src; Modelled from the spec: get returns the profile or a
    not-found signal, and a conversation-append failure raises).  Note
    the unguarded indexing into the search result before synthesis. -/
def generateRecipeRoute (env : Env) (uid : String) :
    Except HErr RecipeResponse × Effects :=
  match env.getUser with
  | none => (Except.error (notFoundErr uid), noEffects)
  | some p =>
      match p.favorite_foods.getD [] with
      | [] => (Except.error badReqErr, noEffects)
      | primary :: _ =>
          let sims := vsSearchSimilarRecipes env primary 2
          match sims with
          | [] =>
              (Except.error internalErr,
               { searchCalls := [(primary, 2)], chatCalls := 0,
                 upsertCalls := [], convCalls := 0 })
          | s0 :: srest =>
              let d := aiGenerateRecipe env p (s0 :: srest)
              let rid := "generated_" ++ uid ++ "_" ++ toString env.now ++ "_" ++ env.uuid
              let stored := vsStoreRecipe env rid (buildVectorRecipeData uid d)
              match env.conv with
              | none =>
                  (Except.error internalErr,
                   { searchCalls := [(primary, 2)], chatCalls := 1,
                     upsertCalls := stored.2, convCalls := 1 })
              | some cid =>
                  match mkRecipeResponse (rinsert d "conversation_id" (Json.str cid)) with
                  | some r =>
                      (Except.ok r,
                       { searchCalls := [(primary, 2)], chatCalls := 1,
                         upsertCalls := stored.2, convCalls := 1 })
                  | none =>
                      (Except.error internalErr,
                       { searchCalls := [(primary, 2)], chatCalls := 1,
                         upsertCalls := stored.2, convCalls := 1 })

/-- GET /recipe/(user_id) of app/routes/recipes_fixed.py: identical
    pipeline except that the search uses top_k 5 and the empty search
    result is not indexed into. -/
def generateRecipeFixedRoute (env : Env) (uid : String) :
    Except HErr RecipeResponse × Effects :=
  match env.getUser with
  | none => (Except.error (notFoundErr uid), noEffects)
  | some p =>
      match p.favorite_foods.getD [] with
      | [] => (Except.error badReqErr, noEffects)
      | primary :: _ =>
          let sims := vsSearchSimilarRecipes env primary 5
          let d := aiGenerateRecipe env p sims
          let rid := "generated_" ++ uid ++ "_" ++ toString env.now ++ "_" ++ env.uuid
          let stored := vsStoreRecipe env rid (buildVectorRecipeData uid d)
          match env.conv with
          | none =>
              (Except.error internalErr,
               { searchCalls := [(primary, 5)], chatCalls := 1,
                 upsertCalls := stored.2, convCalls := 1 })
          | some cid =>
              match mkRecipeResponse (rinsert d "conversation_id" (Json.str cid)) with
              | some r =>
                  (Except.ok r,
                   { searchCalls := [(primary, 5)], chatCalls := 1,
                     upsertCalls := stored.2, convCalls := 1 })
              | none =>
                  (Except.error internalErr,
                   { searchCalls := [(primary, 5)], chatCalls := 1,
                     upsertCalls := stored.2, convCalls := 1 })

/-- The UserProfileResponse model of app/models.py. -/
structure UserProfileResponse where
  student_id : String
  uname : String
  favorite_foods : List String
  dietary_preferences : List String
  created_at : Option Nat
  updated_at : Option Nat

/-- Modelled from the spec: mongodb.get_user of the document-store module
    (absent from src) returns the stored document whose external key
    matches the id, if any. -/
def dbGetUser (db : List UserDoc) (uid : String) : Option UserDoc :=
  db.find? (fun u => u.student_id = uid)

/-- Modelled from the spec: mongodb.create_or_update_user performs upsert
    semantics keyed by the external id of the profile. -/
def dbPutUser (db : List UserDoc) (u : UserDoc) : List UserDoc :=
  if (db.find? (fun v => v.student_id = u.student_id)).isSome then
    db.map (fun v => if v.student_id = u.student_id then u else v)
  else db ++ [u]

/-- The migration-on-read step of the user routes: a document carrying
    the singular favorite_food key and no favorite_foods key is rewritten
    to the plural one-element list with the singular key deleted; the
    flag reports whether a write-back is due. -/
def migrateUserDoc (u : UserDoc) : UserDoc × Bool :=
  match u.favorite_food, u.favorite_foods with
  | some f, none =>
      ({ u with favorite_foods := some [f], favorite_food := none }, true)
  | _, _ => (u, false)

/-- The response built from a migrated document, defaulting the plural
    list when still absent. -/
def userRespOf (u : UserDoc) : UserProfileResponse :=
  { student_id := u.student_id, uname := u.uname,
    favorite_foods := u.favorite_foods.getD [],
    dietary_preferences := u.dietary_preferences,
    created_at := u.created_at, updated_at := u.updated_at }

/-- GET /user/(user_id) of app/routes/users.py: look the document up,
    migrate legacy shape with a write-back to the store, and answer with
    the profile response; returns the response and the updated store. -/
def getUserRoute (db : List UserDoc) (uid : String) :
    Except HErr UserProfileResponse × List UserDoc :=
  match dbGetUser db uid with
  | none => (Except.error (notFoundErr uid), db)
  | some u =>
      let m := migrateUserDoc u
      let db2 := if m.2 then dbPutUser db m.1 else db
      (Except.ok (userRespOf m.1), db2)

/-- The loop body of GET /user/ of app/routes/users.py: one stored
    document is migrated (with a write-back when legacy) and appended to
    the response list. -/
def processUserDoc (acc : List UserDoc × List UserProfileResponse) (u : UserDoc) :
    List UserDoc × List UserProfileResponse :=
  let m := migrateUserDoc u
  let db2 := if m.2 then dbPutUser acc.1 m.1 else acc.1
  (db2, acc.2 ++ [userRespOf m.1])

/-- GET /user/ of app/routes/users.py: iterate the snapshot of all
    stored documents through the migration loop.  Modelled from the spec:
    mongodb.get_all_users (absent from src) lists the stored documents. -/
def getAllUsersRoute (db : List UserDoc) :
    (List UserProfileResponse × Nat) × List UserDoc :=
  let r := db.foldl processUserDoc (db, [])
  ((r.2, r.2.length), r.1)

/-- Whether a metadata value is a scalar or a list of strings, the shape
    the vector index accepts. -/
def scalarOrStrListB : Json → Bool
  | Json.str _ => true
  | Json.num _ => true
  | Json.bool _ => true
  | Json.arr xs => xs.all (fun x => match x with | Json.str _ => true | _ => false)
  | _ => false

def isStrB : Json → Bool
  | Json.str _ => true
  | _ => false

def isIntB : Json → Bool
  | Json.num _ => true
  | _ => false

def isStrListB : Json → Bool
  | Json.arr xs => xs.all (fun x => match x with | Json.str _ => true | _ => false)
  | _ => false

/-- Whether a field, when present, satisfies a shape check (the absent
    case is covered by the literal defaults of vector_recipe_data). -/
def optFieldIs (d : RDict) (k : String) (pred : Json → Bool) : Bool :=
  match rget? d k with
  | none => true
  | some v => pred v

/-- The copied-through fields of vector_recipe_data have the shapes the
    generation prompt asks for, whenever they are present. -/
def wellTypedForVector (d : RDict) : Prop :=
  optFieldIs d "recipe_name" isStrB = true ∧
  optFieldIs d "ingredients" isStrListB = true ∧
  optFieldIs d "instructions" isStrListB = true ∧
  optFieldIs d "difficulty" isStrB = true ∧
  optFieldIs d "cooking_time" isStrB = true ∧
  optFieldIs d "servings" isIntB = true ∧
  optFieldIs d "dietary_tags" isStrListB = true ∧
  optFieldIs d "conversation_id" isStrB = true ∧
  optFieldIs d "user_id" isStrB = true

theorem pickChoice_mem (i : Nat) (l : List String) (d : String) (h : l ≠ []) :
    pickChoice i l d ∈ l := by
  match l with
  | [] => exact absurd rfl h
  | x :: xs =>
    have hlt : i % (x :: xs).length < (x :: xs).length :=
      Nat.mod_lt _ (by simp)
    simp only [pickChoice, List.getD]
    rw [List.get?_eq_get hlt]
    exact List.get_mem _ _ _

/-- The similarity matches that can contribute to the generation
    context: the first of those scoring strictly above the threshold. -/
def contextChosenMatches (sims : List SimMatch) : List SimMatch :=
  (sims.filter (fun r => (0.8 : ℚ) < r.score)).take 1

/-- C9: for every user profile and every retrieved match list, the
    generation context contains at most one similarity match, that match
    scores strictly above 0.8, and the inspiration section of the context
    is rendered exactly from that selection, so matches scoring 0.8 or
    below never appear. -/
theorem context_includes_at_most_one_high_scoring_match
    (env : Env) (p : UserDoc) (sims : List SimMatch) :
    (contextChosenMatches sims).length ≤ 1 ∧
    (∀ m ∈ contextChosenMatches sims, (0.8 : ℚ) < m.score) ∧
    createContextParts env p sims =
      [favoriteFoodPart env p] ++ dietaryParts p ++
        (if sims.isEmpty then []
         else match contextChosenMatches sims with
           | [] => ["No highly relevant recipes found for inspiration."]
           | m :: _ => ["Similar recipes for inspiration:", "1. " ++ recipeInfoLine m]) := by
  refine ⟨?_, ?_, ?_⟩
  · simp [contextChosenMatches, List.length_take]
  · intro m hm
    have hmem : m ∈ sims.filter (fun r => (0.8 : ℚ) < r.score) :=
      List.mem_of_mem_take hm
    have := (List.mem_filter.mp hmem).2
    exact of_decide_eq_true this
  · simp only [createContextParts, inspirationParts, relevantRecipeLines,
      contextChosenMatches]
    cases hf : sims.filter (fun r => (0.8 : ℚ) < r.score) with
    | nil => simp
    | cons m rest => simp

/-- C7: search_similar_recipes is total and, assuming the index honours
    its k-bound on this call, returns at most top_k entries; an embedding
    or query failure yields the empty list, and top_k zero yields the
    empty list. -/
theorem search_similar_recipes_total_and_bounded
    (env : Env) (q : String) (top_k : Nat)
    (hq : ∀ ms, env.query top_k = some ms → ms.length ≤ top_k) :
    (vsSearchSimilarRecipes env q top_k).length ≤ top_k ∧
    (env.embedSearch = false → vsSearchSimilarRecipes env q top_k = []) ∧
    (env.query top_k = none → vsSearchSimilarRecipes env q top_k = []) ∧
    (top_k = 0 → vsSearchSimilarRecipes env q top_k = []) := by
  have hlen : (vsSearchSimilarRecipes env q top_k).length ≤ top_k := by
    unfold vsSearchSimilarRecipes
    cases he : env.embedSearch with
    | false => simp
    | true =>
      cases hqq : env.query top_k with
      | none => simp
      | some ms => simpa using hq ms hqq
  refine ⟨hlen, ?_, ?_, ?_⟩
  · intro he
    unfold vsSearchSimilarRecipes
    simp [he]
  · intro hqq
    unfold vsSearchSimilarRecipes
    simp [hqq]
  · intro hk
    subst hk
    exact List.length_eq_zero.mp (Nat.le_zero.mp hlen)

def envW7 : Env :=
  { now := 0, uuid := "ab", choiceCtx := 0, choiceFb := 0,
    chat := fun _ => none, loads := jsonLoadsObj, imageGen := none,
    embedSearch := true, query := fun _ => some [], embedStore := true,
    upsertOk := true, getUser := none, conv := none }

/-- Witness for C7 at a concrete environment and top_k zero. -/
theorem search_similar_recipes_total_and_bounded_witness :
    vsSearchSimilarRecipes envW7 "pizza" 0 = [] :=
  (search_similar_recipes_total_and_bounded envW7 "pizza" 0
    (fun ms hms => by cases hms; simp)).2.2.2 rfl

/-- C8: whenever the whole synthesis step fails (the provider call raises
    on every prompt), a profile with at least one favorite food gets a
    recipe named Simple followed by one of its favorite foods. -/
theorem synthesis_failure_recipe_name_simple_favorite
    (env : Env) (p : UserDoc) (sims : List SimMatch)
    (hfail : ∀ s, env.chat s = none)
    (hfav : p.favorite_foods.getD [] ≠ []) :
    ∃ food ∈ p.favorite_foods.getD [],
      rget? (aiGenerateRecipe env p sims) "recipe_name" =
        some (Json.str ("Simple " ++ food)) := by
  refine ⟨pickChoice env.choiceFb (p.favorite_foods.getD []) "Recipe",
    pickChoice_mem _ _ _ hfav, ?_⟩
  unfold aiGenerateRecipe
  rw [hfail]
  simp [getFallbackRecipe, rget?]

def pW8 : UserDoc :=
  { student_id := "u1", uname := "Ann", favorite_food := none,
    favorite_foods := some ["pasta"], dietary_preferences := [],
    created_at := none, updated_at := none }

def envW8 : Env :=
  { now := 5, uuid := "ab", choiceCtx := 0, choiceFb := 0,
    chat := fun _ => none, loads := jsonLoadsObj, imageGen := none,
    embedSearch := true, query := fun _ => some [], embedStore := true,
    upsertOk := true, getUser := some pW8, conv := some "c1" }

/-- Witness for C8 at a concrete failing provider and profile. -/
theorem synthesis_failure_recipe_name_simple_favorite_witness :
    ∃ food ∈ pW8.favorite_foods.getD [],
      rget? (aiGenerateRecipe envW8 pW8 []) "recipe_name" =
        some (Json.str ("Simple " ++ food)) :=
  synthesis_failure_recipe_name_simple_favorite envW8 pW8 []
    (fun _ => rfl) (by simp [pW8])

/-- C2 (amended): when the pattern search finds no JSON object in the
    provider text the synthesized recipe is the fixed fallback-parse
    recipe (Simple Recipe, 4 servings, Medium) with the route metadata
    attached; the static Simple Pasta default (2 servings, Easy) is
    produced when a region is found but decoding raises. -/
theorem no_json_object_yields_fallback_parse_recipe
    (env : Env) (p : UserDoc) (sims : List SimMatch) (text : String)
    (hchat : env.chat (recipeUserMsg env p sims) = some text) :
    (extractBraced text = none →
       aiGenerateRecipe env p sims = finalizeRecipe env p fallbackParseRecipe ∧
       rget? fallbackParseRecipe "recipe_name" = some (Json.str "Simple Recipe") ∧
       rget? fallbackParseRecipe "servings" = some (Json.num 4) ∧
       rget? fallbackParseRecipe "difficulty" = some (Json.str "Medium")) ∧
    (∀ s, extractBraced text = some s → env.loads s = none →
       aiGenerateRecipe env p sims = finalizeRecipe env p (getDefaultRecipe env) ∧
       rget? (getDefaultRecipe env) "recipe_name" = some (Json.str "Simple Pasta") ∧
       rget? (getDefaultRecipe env) "servings" = some (Json.num 2) ∧
       rget? (getDefaultRecipe env) "difficulty" = some (Json.str "Easy")) := by
  constructor
  · intro hej
    refine ⟨?_, rfl, rfl, rfl⟩
    unfold aiGenerateRecipe
    rw [hchat]
    simp [parseRecipeResponse, hej]
  · intro s hes hl
    refine ⟨?_, rfl, rfl, rfl⟩
    unfold aiGenerateRecipe
    rw [hchat]
    simp [parseRecipeResponse, hes, hl]

def pC2 : UserDoc :=
  { student_id := "u2", uname := "Bob", favorite_food := none,
    favorite_foods := some ["rice"], dietary_preferences := [],
    created_at := none, updated_at := none }

def envC2 : Env :=
  { now := 7, uuid := "cd", choiceCtx := 0, choiceFb := 0,
    chat := fun _ => some "no json at all", loads := jsonLoadsObj,
    imageGen := none, embedSearch := true, query := fun _ => some [],
    embedStore := true, upsertOk := true, getUser := some pC2,
    conv := some "c2" }

/-- Counterexample to C2 as stated: on provider text without any JSON
    object the synthesized recipe is Simple Recipe with 4 servings, not
    the static default Simple Pasta with 2 servings. -/
theorem no_json_object_not_default_recipe_cex :
    extractBraced "no json at all" = none ∧
    rget? (aiGenerateRecipe envC2 pC2 []) "recipe_name" =
      some (Json.str "Simple Recipe") ∧
    rget? (aiGenerateRecipe envC2 pC2 []) "servings" = some (Json.num 4) ∧
    rget? (aiGenerateRecipe envC2 pC2 []) "difficulty" = some (Json.str "Medium") ∧
    Json.str "Simple Recipe" ≠ Json.str "Simple Pasta" ∧
    Json.num 4 ≠ Json.num 2 := by
  refine ⟨rfl, rfl, rfl, rfl, ?_, ?_⟩
  · intro h
    injection h with h2
    exact absurd h2 (by decide)
  · intro h
    injection h with h2
    exact absurd h2 (by decide)

/-- Witness for C2 (amended) at the concrete non-JSON provider text. -/
theorem no_json_object_yields_fallback_parse_recipe_witness :
    aiGenerateRecipe envC2 pC2 [] = finalizeRecipe envC2 pC2 fallbackParseRecipe :=
  ((no_json_object_yields_fallback_parse_recipe envC2 pC2 [] "no json at all" rfl).1
    rfl).1

theorem rget?_finalize_nf (env : Env) (p : UserDoc) (d : RDict) :
    rget? (finalizeRecipe env p d) "nutritional_facts" =
      rget? d "nutritional_facts" := by
  unfold finalizeRecipe
  rw [rget?_rinsert_ne _ _ _ _ (by decide), rget?_rinsert_ne _ _ _ _ (by decide),
    rget?_rinsert_ne _ _ _ _ (by decide)]

theorem rcontains_finalize (env : Env) (p : UserDoc) (d : RDict) (k : String)
    (h1 : "image_url" ≠ k) (h2 : "user_id" ≠ k) (h3 : "generated_at" ≠ k) :
    rcontains (finalizeRecipe env p d) k = rcontains d k := by
  unfold finalizeRecipe rcontains
  rw [rget?_rinsert_ne _ _ _ _ h3, rget?_rinsert_ne _ _ _ _ h2,
    rget?_rinsert_ne _ _ _ _ h1]

theorem completion_preserves_nf (fs c : RDict) (h : completeRecipeJson fs = some c) :
    rget? c "nutritional_facts" =
      some ((rget? fs "nutritional_facts").getD (Json.obj parseDefaultNF)) := by
  have hstep : ∀ d2 : RDict,
      rget? d2 "nutritional_facts" = rget? fs "nutritional_facts" →
      rget? (if rcontains d2 "nutritional_facts" then d2
        else rinsert d2 "nutritional_facts" (Json.obj parseDefaultNF))
          "nutritional_facts" =
        some ((rget? fs "nutritional_facts").getD (Json.obj parseDefaultNF)) := by
    intro d2 hd
    cases hv : rget? d2 "nutritional_facts" with
    | none =>
      rw [if_neg (by simp [rcontains, hv]), rget?_rinsert_self, ← hd, hv]
      rfl
    | some v =>
      rw [if_pos (by simp [rcontains, hv]), hv, ← hd, hv]
      rfl
  unfold completeRecipeJson at h
  by_cases hip : rcontains fs "image_prompt" = true
  · simp only [hip, if_true] at h
    set d1 := fs with hd1
    have hnf1 : rget? d1 "nutritional_facts" = rget? fs "nutritional_facts" := rfl
    set d2 := if rcontains d1 "serving_size" then d1
      else rinsert d1 "serving_size" (Json.str "1 serving") with hd2
    have hnf2 : rget? d2 "nutritional_facts" = rget? fs "nutritional_facts" := by
      rw [hd2]
      by_cases hss : rcontains d1 "serving_size" = true
      · rw [if_pos hss, hnf1]
      · rw [if_neg hss, rget?_rinsert_ne _ _ _ _ (by decide), hnf1]
    rw [Option.some.injEq] at h
    rw [← h]
    exact hstep d2 hnf2
  · simp only [hip, if_false, Bool.false_eq_true] at h
    cases hrn : rgetD fs "recipe_name" (Json.str "Recipe") with
    | str rn =>
      rw [hrn] at h
      simp only [Option.some.injEq] at h
      set d1 := rinsert fs "image_prompt"
        (Json.str ("A delicious " ++ rn.toLower ++ " served on a plate with garnishes"))
        with hd1
      have hnf1 : rget? d1 "nutritional_facts" = rget? fs "nutritional_facts" := by
        rw [hd1, rget?_rinsert_ne _ _ _ _ (by decide)]
      set d2 := if rcontains d1 "serving_size" then d1
        else rinsert d1 "serving_size" (Json.str "1 serving") with hd2
      have hnf2 : rget? d2 "nutritional_facts" = rget? fs "nutritional_facts" := by
        rw [hd2]
        by_cases hss : rcontains d1 "serving_size" = true
        · rw [if_pos hss, hnf1]
        · rw [if_neg hss, rget?_rinsert_ne _ _ _ _ (by decide), hnf1]
      rw [← h]
      exact hstep d2 hnf2
    | null => rw [hrn] at h; exact absurd h (by simp)
    | bool b => rw [hrn] at h; exact absurd h (by simp)
    | num n => rw [hrn] at h; exact absurd h (by simp)
    | arr xs => rw [hrn] at h; exact absurd h (by simp)
    | obj gs => rw [hrn] at h; exact absurd h (by simp)
    | time t => rw [hrn] at h; exact absurd h (by simp)

/-- C1 (amended): synthesis is total (modelled as a function, mirroring
    the catch-all fallback) and the synthesized recipe carries exactly
    the seven nutritional keys, plus dietary_tags, ingredients and
    instructions, whenever no completed provider object exists; when the
    provider output decodes and completes, a provider-supplied
    nutritional_facts value is passed through unchanged and the seven-key
    placeholder is used exactly when the provider omitted that key. -/
theorem nutritional_facts_policy (env : Env) (p : UserDoc) (sims : List SimMatch) :
    (providerParsed env p sims = none →
       nfKeys (aiGenerateRecipe env p sims) = sevenNFKeys ∧
       rcontains (aiGenerateRecipe env p sims) "dietary_tags" = true ∧
       rcontains (aiGenerateRecipe env p sims) "ingredients" = true ∧
       rcontains (aiGenerateRecipe env p sims) "instructions" = true) ∧
    (∀ c, providerParsed env p sims = some c →
       aiGenerateRecipe env p sims = finalizeRecipe env p c ∧
       rget? (aiGenerateRecipe env p sims) "nutritional_facts" =
         some ((providerSuppliedNF env p sims).getD (Json.obj parseDefaultNF)) ∧
       (providerSuppliedNF env p sims = none →
          nfKeys (aiGenerateRecipe env p sims) = sevenNFKeys)) := by
  cases hc : env.chat (recipeUserMsg env p sims) with
  | none =>
    constructor
    · intro _
      simp only [aiGenerateRecipe, hc]
      exact ⟨rfl, rfl, rfl, rfl⟩
    · intro c hpc
      simp [providerParsed, hc] at hpc
  | some t =>
    cases he : extractBraced t with
    | none =>
      constructor
      · intro _
        simp only [aiGenerateRecipe, hc, parseRecipeResponse, he]
        exact ⟨rfl, rfl, rfl, rfl⟩
      · intro c hpc
        simp [providerParsed, hc, he] at hpc
    | some s =>
      cases hl : env.loads s with
      | none =>
        constructor
        · intro _
          simp only [aiGenerateRecipe, hc, parseRecipeResponse, he, hl]
          exact ⟨rfl, rfl, rfl, rfl⟩
        · intro c hpc
          simp [providerParsed, hc, he, hl] at hpc
      | some fs =>
        cases hcomp : completeRecipeJson fs with
        | none =>
          constructor
          · intro _
            simp only [aiGenerateRecipe, hc, parseRecipeResponse, he, hl, hcomp]
            exact ⟨rfl, rfl, rfl, rfl⟩
          · intro c hpc
            simp [providerParsed, hc, he, hl, hcomp] at hpc
        | some c0 =>
          constructor
          · intro hnone
            simp [providerParsed, hc, he, hl, hcomp] at hnone
          · intro c hpc
            have hcc : c0 = c := by
              simpa [providerParsed, hc, he, hl, hcomp] using hpc
            subst hcc
            have hai : aiGenerateRecipe env p sims = finalizeRecipe env p c0 := by
              simp only [aiGenerateRecipe, hc, parseRecipeResponse, he, hl, hcomp]
            have hsup : providerSuppliedNF env p sims = rget? fs "nutritional_facts" := by
              simp [providerSuppliedNF, hc, he, hl, hcomp]
            have hval : rget? (aiGenerateRecipe env p sims) "nutritional_facts" =
                some ((providerSuppliedNF env p sims).getD (Json.obj parseDefaultNF)) := by
              rw [hai, rget?_finalize_nf, completion_preserves_nf fs c0 hcomp, hsup]
            refine ⟨hai, hval, ?_⟩
            intro hnonef
            rw [hnonef] at hval
            unfold nfKeys
            rw [hval]
            rfl

set_option maxRecDepth 40000

def pC1 : UserDoc :=
  { student_id := "u1", uname := "Ann", favorite_food := none,
    favorite_foods := some ["pasta"], dietary_preferences := [],
    created_at := none, updated_at := none }

/-- A provider reply that is valid JSON but supplies a one-key
    nutritional_facts object of its own. -/
def tC1 : String :=
  "\x7b\"recipe_name\": \"Pasta Bake\", \"ingredients\": [\"pasta\"], \"instructions\": [\"bake\"], \"cooking_time\": \"20 minutes\", \"difficulty\": \"Easy\", \"servings\": 2, \"serving_size\": \"1 cup\", \"dietary_tags\": [], \"nutritional_facts\": \x7b\"calories\": 100\x7d, \"image_prompt\": \"p\"\x7d"

def envC1 : Env :=
  { now := 3, uuid := "ab", choiceCtx := 0, choiceFb := 0,
    chat := fun _ => some tC1, loads := jsonLoadsObj, imageGen := none,
    embedSearch := true,
    query := fun _ => some [{ mid := "m1", score := 1/2, metadata := [] }],
    embedStore := true, upsertOk := true, getUser := some pC1,
    conv := some "c9" }

/-- Counterexample to C1 as stated: for a stored profile with a favorite
    food, the generation endpoint returns a 200 response whose
    nutritional_facts has the single key the provider supplied, not the
    seven fixed keys. -/
theorem nutritional_facts_seven_keys_cex :
    Except.map (fun r => r.nutritional_facts.map Prod.fst)
      (generateRecipeRoute envC1 "u1").1 = Except.ok ["calories"] ∧
    (["calories"] : List String) ≠ sevenNFKeys := by
  constructor
  · rfl
  · decide

def simsC1 : List SimMatch := vsSearchSimilarRecipes envC1 "pasta" 2

/-- The completed provider object decoded from tC1. -/
def cC1 : RDict :=
  [("recipe_name", Json.str "Pasta Bake"),
   ("ingredients", Json.arr [Json.str "pasta"]),
   ("instructions", Json.arr [Json.str "bake"]),
   ("cooking_time", Json.str "20 minutes"),
   ("difficulty", Json.str "Easy"),
   ("servings", Json.num 2),
   ("serving_size", Json.str "1 cup"),
   ("dietary_tags", Json.arr []),
   ("nutritional_facts", Json.obj [("calories", Json.num 100)]),
   ("image_prompt", Json.str "p")]

/-- Witness for C1 (amended) at the concrete provider reply. -/
theorem nutritional_facts_policy_witness :
    rget? (aiGenerateRecipe envC1 pC1 simsC1) "nutritional_facts" =
      some ((providerSuppliedNF envC1 pC1 simsC1).getD (Json.obj parseDefaultNF)) :=
  ((nutritional_facts_policy envC1 pC1 simsC1).2 cC1 rfl).2.1

theorem dbGetUser_student_id (db : List UserDoc) (uid : String) (u : UserDoc)
    (hget : dbGetUser db uid = some u) : u.student_id = uid := by
  have := List.find?_some hget
  simpa using this

theorem dbGetUser_dbPutUser (db : List UserDoc) (uid : String) (u w : UserDoc)
    (hget : dbGetUser db uid = some u) (hw : w.student_id = u.student_id) :
    dbGetUser (dbPutUser db w) uid = some w := by
  have huid : u.student_id = uid := dbGetUser_student_id db uid u hget
  have hwid : w.student_id = uid := by rw [hw, huid]
  unfold dbPutUser
  rw [if_pos]
  · unfold dbGetUser at hget ⊢
    induction db with
    | nil => simp [List.find?] at hget
    | cons v vs ih =>
      by_cases hv : v.student_id = uid
      · simp [List.find?, hv, hwid, hw]
      · rw [List.find?_cons_of_neg _ (by simp [hv])] at hget
        simp only [List.map_cons]
        rw [List.find?_cons_of_neg _ (by simp [hwid, hv]), ih hget]
  · rw [hw, huid]
    unfold dbGetUser at hget
    simp [Option.isSome_iff_exists]
    exact ⟨u, hget⟩

/-- C10: reading a profile migrates legacy documents and persists the
    migration: for a stored document with the singular favorite_food and
    no favorite_foods, GET /user/(user_id) writes the migrated document
    back (plural one-element list, singular key removed), answers with
    the migrated shape, a second read sees the migrated shape without a
    further write, and the GET /user/ loop body performs the same
    write-back. -/
theorem get_user_migrates_and_persists (db : List UserDoc) (uid : String)
    (u : UserDoc) (f : String)
    (hget : dbGetUser db uid = some u)
    (hleg : u.favorite_food = some f) (hnofs : u.favorite_foods = none) :
    (getUserRoute db uid).2 =
      dbPutUser db { u with favorite_foods := some [f], favorite_food := none } ∧
    (getUserRoute db uid).1 =
      Except.ok (userRespOf { u with favorite_foods := some [f], favorite_food := none }) ∧
    dbGetUser (getUserRoute db uid).2 uid =
      some { u with favorite_foods := some [f], favorite_food := none } ∧
    getUserRoute (getUserRoute db uid).2 uid =
      (Except.ok (userRespOf { u with favorite_foods := some [f], favorite_food := none }),
       (getUserRoute db uid).2) ∧
    (∀ acc : List UserDoc × List UserProfileResponse,
      processUserDoc acc u =
        (dbPutUser acc.1 { u with favorite_foods := some [f], favorite_food := none },
         acc.2 ++ [userRespOf { u with favorite_foods := some [f], favorite_food := none }])) := by
  have hmig : migrateUserDoc u =
      ({ u with favorite_foods := some [f], favorite_food := none }, true) := by
    unfold migrateUserDoc
    rw [hleg, hnofs]
  have hroute : getUserRoute db uid =
      (Except.ok (userRespOf { u with favorite_foods := some [f], favorite_food := none }),
       dbPutUser db { u with favorite_foods := some [f], favorite_food := none }) := by
    unfold getUserRoute
    rw [hget]
    simp [hmig]
  have hget2 : dbGetUser (getUserRoute db uid).2 uid =
      some { u with favorite_foods := some [f], favorite_food := none } := by
    rw [hroute]
    exact dbGetUser_dbPutUser db uid u _ hget rfl
  refine ⟨by rw [hroute], by rw [hroute], hget2, ?_, ?_⟩
  · generalize hdb2 : (getUserRoute db uid).2 = db2 at hget2 ⊢
    unfold getUserRoute
    rw [hget2]
    simp [migrateUserDoc]
  · intro acc
    unfold processUserDoc
    rw [hmig]
    simp

def uL : UserDoc :=
  { student_id := "lu1", uname := "Lea", favorite_food := some "pizza",
    favorite_foods := none, dietary_preferences := ["vegan"],
    created_at := none, updated_at := none }

def dbL : List UserDoc := [uL]

/-- Witness for C10: the migrated legacy document is what a second read
    of the store returns. -/
theorem get_user_migrates_and_persists_witness :
    dbGetUser (getUserRoute dbL "lu1").2 "lu1" =
      some { uL with favorite_foods := some ["pizza"], favorite_food := none } :=
  (get_user_migrates_and_persists dbL "lu1" uL "pizza" rfl rfl rfl).2.2.1

theorem scalar_of_isStrB (x : Json) (h : isStrB x = true) :
    scalarOrStrListB x = true := by
  cases x <;> simp_all [isStrB, scalarOrStrListB]

theorem scalar_of_isIntB (x : Json) (h : isIntB x = true) :
    scalarOrStrListB x = true := by
  cases x <;> simp_all [isIntB, scalarOrStrListB]

theorem scalar_of_isStrListB (x : Json) (h : isStrListB x = true) :
    scalarOrStrListB x = true := by
  cases x <;> simp_all [isStrListB, scalarOrStrListB]

theorem scalarOrStrListB_rgetD (d : RDict) (k : String) (dflt : Json)
    (pred : Json → Bool) (hp : optFieldIs d k pred = true)
    (himp : ∀ x, pred x = true → scalarOrStrListB x = true)
    (hdflt : scalarOrStrListB dflt = true) :
    scalarOrStrListB (rgetD d k dflt) = true := by
  unfold rgetD
  unfold optFieldIs at hp
  cases hv : rget? d k with
  | none => simpa using hdflt
  | some v =>
    rw [hv] at hp
    simpa using himp v hp

/-- C4 (amended): the generation route builds vector_recipe_data with
    scalar or string-list values whenever the fields it copies from the
    parsed recipe have their expected shapes (the fields it constructs
    itself are always scalar-safe), and store_recipe hands the dict to
    the upsert verbatim, performing no shape validation of its own. -/
theorem vector_metadata_scalar_when_well_typed (uid : String) (d : RDict)
    (h : wellTypedForVector d) :
    (buildVectorRecipeData uid d).all (fun kv => scalarOrStrListB kv.2) = true ∧
    (∀ env rid d0, ∀ v ∈ (vsStoreRecipe env rid d0).2, v.metadata = d0) := by
  constructor
  · obtain ⟨h1, h2, h3, h4, h5, h6, h7, h8, h9⟩ := h
    simp only [buildVectorRecipeData, List.all_cons, List.all_nil, Bool.and_eq_true,
      Bool.and_true]
    exact ⟨scalarOrStrListB_rgetD _ _ _ _ h1 scalar_of_isStrB rfl,
      scalarOrStrListB_rgetD _ _ _ _ h2 scalar_of_isStrListB rfl,
      scalarOrStrListB_rgetD _ _ _ _ h3 scalar_of_isStrListB rfl,
      rfl,
      scalarOrStrListB_rgetD _ _ _ _ h4 scalar_of_isStrB rfl,
      scalarOrStrListB_rgetD _ _ _ _ h5 scalar_of_isStrB rfl,
      scalarOrStrListB_rgetD _ _ _ _ h6 scalar_of_isIntB rfl,
      rfl, rfl, rfl,
      scalarOrStrListB_rgetD _ _ _ _ h8 scalar_of_isStrB rfl,
      scalarOrStrListB_rgetD _ _ _ _ h7 scalar_of_isStrListB rfl,
      scalarOrStrListB_rgetD _ _ _ _ h9 scalar_of_isStrB rfl⟩
  · intro env rid d0 v hv
    unfold vsStoreRecipe at hv
    by_cases he : env.embedStore = true
    · rw [if_pos he] at hv
      simp at hv
      rw [hv]
    · rw [if_neg he] at hv
      simp at hv

def pC4 : UserDoc :=
  { student_id := "u4", uname := "Dan", favorite_food := none,
    favorite_foods := some ["soup"], dietary_preferences := [],
    created_at := none, updated_at := none }

/-- A provider reply that is valid JSON whose ingredients value is a list
    of numbers. -/
def tC4 : String :=
  "\x7b\"recipe_name\": \"Soup\", \"ingredients\": [1], \"instructions\": [\"stir\"], \"cooking_time\": \"10 minutes\", \"difficulty\": \"Easy\", \"servings\": 1, \"serving_size\": \"1 cup\", \"dietary_tags\": [], \"nutritional_facts\": \x7b\"calories\": 50\x7d, \"image_prompt\": \"p\"\x7d"

def envC4 : Env :=
  { now := 4, uuid := "ef", choiceCtx := 0, choiceFb := 0,
    chat := fun _ => some tC4, loads := jsonLoadsObj, imageGen := none,
    embedSearch := true,
    query := fun _ => some [{ mid := "m4", score := 0, metadata := [] }],
    embedStore := true, upsertOk := true, getUser := some pC4,
    conv := some "c4" }

/-- Counterexample to C4 as stated: the pipeline hands the vector index a
    metadata value that is neither a scalar nor a string list (a number
    list copied from the parsed recipe), with no validation at the
    persistence boundary rejecting it. -/
theorem vector_metadata_unvalidated_write_cex :
    ((generateRecipeRoute envC4 "u4").2.upsertCalls.map
      (fun v => rget? v.metadata "ingredients")) = [some (Json.arr [Json.num 1])] ∧
    scalarOrStrListB (Json.arr [Json.num 1]) = false := by
  exact ⟨rfl, rfl⟩

/-- Witness for C4 (amended) at a concrete well-shaped recipe dict. -/
theorem vector_metadata_scalar_when_well_typed_witness :
    (buildVectorRecipeData "u1" fallbackParseRecipe).all
      (fun kv => scalarOrStrListB kv.2) = true :=
  (vector_metadata_scalar_when_well_typed "u1" fallbackParseRecipe
    ⟨rfl, rfl, rfl, rfl, rfl, rfl, rfl, rfl, rfl⟩).1

/-- C6: the generation endpoint answers 404 exactly when no profile
    exists, 400 exactly when the profile has an empty (or absent)
    favorite-food list, and in both cases it performs no retrieval,
    generation or persistence call. -/
theorem generate_recipe_404_400_exactly (env : Env) (uid : String) :
    ((∃ e, (generateRecipeRoute env uid).1 = Except.error e ∧ e.status = 404) ↔
       env.getUser = none) ∧
    ((∃ e, (generateRecipeRoute env uid).1 = Except.error e ∧ e.status = 400) ↔
       (∃ p, env.getUser = some p ∧ p.favorite_foods.getD [] = [])) ∧
    ((env.getUser = none ∨
        (∃ p, env.getUser = some p ∧ p.favorite_foods.getD [] = [])) →
       (generateRecipeRoute env uid).2 = noEffects) := by
  unfold generateRecipeRoute
  dsimp only
  split
  next hg =>
    refine ⟨?_, ?_, fun _ => rfl⟩
    · simp [hg, notFoundErr]
    · simp [hg, notFoundErr]
  next p hg =>
    split
    next hf =>
      refine ⟨?_, ?_, fun _ => rfl⟩
      · simp [hg, badReqErr]
      · constructor
        · intro _
          exact ⟨p, hg, hf⟩
        · intro _
          exact ⟨badReqErr, rfl, rfl⟩
    next x xs hf =>
      have hnotright : ¬ (env.getUser = none ∨
          (∃ p2, env.getUser = some p2 ∧ p2.favorite_foods.getD [] = [])) := by
        intro h
        rcases h with h1 | ⟨p2, hp2, hf2⟩
        · rw [hg] at h1
          exact absurd h1 (by simp)
        · rw [hg, Option.some.injEq] at hp2
          rw [← hp2, hf] at hf2
          exact absurd hf2 (by simp)
      refine ⟨?_, ?_, fun h => absurd h hnotright⟩
      · split
        next hsr => simp [hg, internalErr]
        next s0 srest hsr =>
          split
          next hc => simp [hg, internalErr]
          next cid hc =>
            split
            next r hm => simp [hg]
            next hm => simp [hg, internalErr]
      · split
        next hsr => simp [internalErr, hnotright, hg, hf]
        next s0 srest hsr =>
          split
          next hc => simp [internalErr, hnotright, hg, hf]
          next cid hc =>
            split
            next r hm => simp [hnotright, hg, hf]
            next hm => simp [internalErr, hnotright, hg, hf]

def envW6 : Env :=
  { now := 0, uuid := "ij", choiceCtx := 0, choiceFb := 0,
    chat := fun _ => none, loads := jsonLoadsObj, imageGen := none,
    embedSearch := false, query := fun _ => none, embedStore := false,
    upsertOk := false, getUser := none, conv := none }

/-- Witness for C6 at a store without the requested user. -/
theorem generate_recipe_404_400_exactly_witness :
    (generateRecipeRoute envW6 "nosuch").2 = noEffects :=
  (generate_recipe_404_400_exactly envW6 "nosuch").2.2 (Or.inl rfl)

/-- The response component of the generation route, factored out: it
    never reads the embedding or upsert outcome of the vector write. -/
def generateRecipeResp (env : Env) (uid : String) : Except HErr RecipeResponse :=
  match env.getUser with
  | none => Except.error (notFoundErr uid)
  | some p =>
      match p.favorite_foods.getD [] with
      | [] => Except.error badReqErr
      | primary :: _ =>
          match vsSearchSimilarRecipes env primary 2 with
          | [] => Except.error internalErr
          | s0 :: srest =>
              match env.conv with
              | none => Except.error internalErr
              | some cid =>
                  match mkRecipeResponse
                      (rinsert (aiGenerateRecipe env p (s0 :: srest))
                        "conversation_id" (Json.str cid)) with
                  | some r => Except.ok r
                  | none => Except.error internalErr

theorem generateRecipeRoute_fst (env : Env) (uid : String) :
    (generateRecipeRoute env uid).1 = generateRecipeResp env uid := by
  unfold generateRecipeRoute generateRecipeResp
  dsimp only
  split
  next hg => rfl
  next p hg =>
    split
    next hf => rfl
    next x xs hf =>
      split
      next hsr => rfl
      next s0 srest hsr =>
        split
        next hc => rfl
        next cid hc =>
          split
          next r hm => rfl
          next hm => rfl

/-- C5: an embedding or upsert failure during the vector write leaves the
    endpoint response unchanged, while a conversation-append failure for
    a user with preferences is surfaced as the internal error, so no
    recipe response is returned. -/
theorem vector_write_failure_response_invariant (env : Env) (uid : String)
    (b e : Bool) :
    (generateRecipeRoute { env with embedStore := e, upsertOk := b } uid).1 =
      (generateRecipeRoute env uid).1 ∧
    (∀ p, env.getUser = some p → p.favorite_foods.getD [] ≠ [] →
       env.conv = none →
       (generateRecipeRoute env uid).1 = Except.error internalErr) := by
  constructor
  · rw [generateRecipeRoute_fst, generateRecipeRoute_fst]
    rfl
  · intro p hp hfav hcv
    rw [generateRecipeRoute_fst]
    unfold generateRecipeResp
    split
    next hg =>
      rw [hg] at hp
      exact absurd hp (by simp)
    next p2 hg =>
      rw [hg, Option.some.injEq] at hp
      subst hp
      split
      next hf => exact absurd hf hfav
      next x xs hf =>
        split
        next hsr => rfl
        next s0 srest hsr =>
          split
          next hc => rfl
          next cid hc =>
            rw [hcv] at hc
            exact absurd hc (by simp)

def pW5 : UserDoc :=
  { student_id := "u5", uname := "Eve", favorite_food := none,
    favorite_foods := some ["kale"], dietary_preferences := [],
    created_at := none, updated_at := none }

def envW5 : Env :=
  { now := 9, uuid := "kl", choiceCtx := 0, choiceFb := 0,
    chat := fun _ => none, loads := jsonLoadsObj, imageGen := none,
    embedSearch := true,
    query := fun _ => some [{ mid := "m5", score := 0, metadata := [] }],
    embedStore := true, upsertOk := true, getUser := some pW5,
    conv := none }

/-- Witness for C5 at a concrete environment whose conversation append
    fails. -/
theorem vector_write_failure_response_invariant_witness :
    (generateRecipeRoute envW5 "u5").1 = Except.error internalErr :=
  (vector_write_failure_response_invariant envW5 "u5" true true).2 pW5 rfl
    (by simp [pW5]) rfl

def pC3 : UserDoc :=
  { student_id := "u3", uname := "Cal", favorite_food := none,
    favorite_foods := some ["pasta"], dietary_preferences := [],
    created_at := none, updated_at := none }

def envC3 : Env :=
  { now := 2, uuid := "gh", choiceCtx := 0, choiceFb := 0,
    chat := fun _ => none, loads := jsonLoadsObj, imageGen := none,
    embedSearch := false, query := fun _ => none, embedStore := false,
    upsertOk := false, getUser := some pC3, conv := some "c3" }

/-- C3 (code bug): with the retrieval backend unreachable the search
    swallows the failure and returns the empty list, yet the registered
    route (app/routes/recipes.py) fails with the internal error before
    ever calling the generation provider, because it indexes the empty
    result; the near-duplicate fixed route completes the pipeline on the
    very same environment and returns a recipe. -/
theorem empty_retrieval_crashes_registered_route :
    vsSearchSimilarRecipes envC3 "pasta" 2 = [] ∧
    (generateRecipeRoute envC3 "u3").1 = Except.error internalErr ∧
    (generateRecipeRoute envC3 "u3").2.chatCalls = 0 ∧
    Except.map (fun r => r.recipe_name) (generateRecipeFixedRoute envC3 "u3").1 =
      Except.ok "Simple pasta" := by
  exact ⟨rfl, rfl, rfl, rfl⟩

def pW9 : UserDoc :=
  { student_id := "s1", uname := "Sam", favorite_food := none,
    favorite_foods := some ["pasta"], dietary_preferences := ["vegetarian"],
    created_at := none, updated_at := none }

def envW9 : Env :=
  { now := 1, uuid := "mn", choiceCtx := 0, choiceFb := 0,
    chat := fun _ => none, loads := jsonLoadsObj, imageGen := none,
    embedSearch := true, query := fun _ => some [], embedStore := true,
    upsertOk := true, getUser := some pW9, conv := some "c1" }

def simW9 : SimMatch :=
  { mid := "m9", score := 9/10, mname := Json.str "Veggie Pasta",
    metadata := [("name", Json.str "Veggie Pasta")] }

/-- Witness for C9 at the spec scenario: one retrieved match scoring 0.9
    is selected for the context. -/
theorem context_includes_at_most_one_high_scoring_match_witness :
    createContextParts envW9 pW9 [simW9] =
      [favoriteFoodPart envW9 pW9] ++ dietaryParts pW9 ++
        (if ([simW9] : List SimMatch).isEmpty then []
         else match contextChosenMatches [simW9] with
           | [] => ["No highly relevant recipes found for inspiration."]
           | m :: _ => ["Similar recipes for inspiration:", "1. " ++ recipeInfoLine m]) :=
  (context_includes_at_most_one_high_scoring_match envW9 pW9 [simW9]).2.2
